import Mathlib

/-!
Verification of the synthetic market-data generation and derived-scoring
engine of `data_generator.py` (class `EnhancedDataGenerator`).

The embedding is a shallow one:

* Python's pseudo-random sources are modelled as streams of rational draws
  (`RandSrc := ℕ → ℚ`): each call into a PRNG consumes the next element of
  its stream, and a draw is conceptually a uniform sample from `[0, 1)`.
  The module uses two independent sources: the `random` module (threaded
  through record generation) and `np.random` (used only by the missingness
  injection, which draws three whole arrays, one per masked column).
* Python floats are modelled as `ℚ`; every constant in the source is an
  exact decimal, and `round(x, 1)` is modelled as exact round-half-to-even
  on tenths.
* A pandas `DataFrame` built from the list of generated record dicts is
  modelled as the `List Business` itself plus its column set: a frame built
  from a non-empty list of dicts has all record keys as columns, one built
  from the empty list has none, and a lookup `df[c]` of a missing column
  raises `KeyError` (modelled with `Except`).
-/

attribute [local semireducible] Rat.ofScientific Rat.mul Rat.inv Rat.add Rat.sub

/-- A pseudo-random source: the stream of draws a seeded generator would
produce; draw `n` is conceptually uniform on `[0, 1)`. -/
def RandSrc : Type := ℕ → ℚ

/-- The source after one draw has been consumed. -/
def RandSrc.tl (s : RandSrc) : RandSrc := fun n => s (n + 1)

/-- One call to `random.random()`: the draw and the advanced source. -/
def pyRandom (s : RandSrc) : ℚ × RandSrc := (s 0, s.tl)

/-- The index a unit draw selects among `n` alternatives (`random.choice`
picks a uniform index below the sequence length). -/
def unitIdx (q : ℚ) (n : ℕ) : ℕ := (⌊q * n⌋).toNat

/-- `random.choice(xs)`: consumes one draw and returns the element at the
selected index (`d` is returned for the empty list, which Python would
reject; all lists passed in this module are non-empty literals). -/
def choiceD (xs : List α) (d : α) (s : RandSrc) : α × RandSrc :=
  (xs.getD (unitIdx (s 0) xs.length) d, s.tl)

/-- `random.randint(a, b)`: one draw mapped onto the inclusive range. -/
def randint (a b : ℤ) (s : RandSrc) : ℤ × RandSrc :=
  (a + ⌊s 0 * ((b - a + 1 : ℤ) : ℚ)⌋, s.tl)

/-- Walk of a cumulative-weight table: the element whose cumulative weight
first exceeds the target, as `random.choices` finds by bisection. -/
def wpick (d : α) : List (α × ℚ) → ℚ → α
  | [], _ => d
  | (x, w) :: rest, t => if t < w then x else wpick d rest (t - w)

/-- `random.choices(xs, weights=ws)[0]`: one draw scaled by the total
weight, then a cumulative-weight lookup. -/
def weightedChoiceD (xs : List α) (ws : List ℚ) (d : α) (s : RandSrc) : α × RandSrc :=
  (wpick d (xs.zip ws) (s 0 * ws.sum), s.tl)

/-- Python's `str.lower` on the ASCII strings this module produces. -/
def lowerStr (s : String) : String := ⟨s.data.map Char.toLower⟩

/-- Python's slicing `s[:n]`. -/
def takeStr (n : ℕ) (s : String) : String := ⟨s.data.take n⟩

/-- Left-to-right non-overlapping replacement of `pat` by `rep`, on fuel
(the fuel is the input length, enough since every step consumes at least
one input character; the module only replaces non-empty patterns). -/
def replaceAux (pat rep : List Char) : ℕ → List Char → List Char
  | 0, l => l
  | _ + 1, [] => []
  | fuel + 1, c :: rest =>
    if pat.isPrefixOf (c :: rest) then rep ++ replaceAux pat rep fuel ((c :: rest).drop pat.length)
    else c :: replaceAux pat rep fuel rest

/-- Python's `str.replace(pat, rep)` (all non-overlapping occurrences,
left to right). -/
def pyReplace (s pat rep : String) : String := ⟨replaceAux pat.data rep.data s.data.length s.data⟩

/-- Little-endian base-10 digits, by fuel (`n` itself is enough fuel). -/
def natDigitsAux : ℕ → ℕ → List ℕ
  | 0, _ => []
  | _ + 1, 0 => []
  | fuel + 1, n + 1 => (n + 1) % 10 :: natDigitsAux fuel ((n + 1) / 10)

/-- Little-endian base-10 digits of `n` (empty for `0`). -/
def natDigits (n : ℕ) : List ℕ := natDigitsAux n n

/-- The decimal digit characters of `n`, most significant first. -/
def natChars (n : ℕ) : List Char := (natDigits n).reverse.map Nat.digitChar

/-- Python's format `f"{n:04d}"`: the decimal numeral left-padded with
zeros to at least four characters. -/
def pad4 (n : ℕ) : String := ⟨List.replicate (4 - (natChars n).length) '0' ++ natChars n⟩

/-- Round-half-to-even to an integer, as Python's `round`. -/
def roundHalfEven (q : ℚ) : ℤ :=
  if q - ⌊q⌋ < 1/2 then ⌊q⌋
  else if 1/2 < q - ⌊q⌋ then ⌊q⌋ + 1
  else if ⌊q⌋ % 2 = 0 then ⌊q⌋ else ⌊q⌋ + 1

/-- Python's `round(x, 1)`: round-half-to-even on tenths. -/
def pyRound1 (q : ℚ) : ℚ := (roundHalfEven (10 * q) : ℚ) / 10

/-- `self.pune_areas`. -/
def pune_areas : List String :=
  ["Baner", "Koregaon Park", "Aundh", "Viman Nagar", "Hadapsar", "Wakad", "Hinjewadi",
   "Pune Station", "Camp", "Deccan", "Shivaji Nagar", "Karve Nagar", "Kothrud",
   "Warje", "Bavdhan", "Sus", "Pashan", "Magarpatta", "Kalyani Nagar", "Yerawada",
   "Kharadi", "Wagholi", "Undri", "Kondhwa", "Wanowrie", "Salisbury Park",
   "Vishrantwadi", "Dhanori", "Lohegaon", "Mundhwa", "Tingre Nagar", "Pimpri",
   "Chinchwad", "Nigdi", "Akurdi", "Bhosari", "Chakan", "Talegaon", "Dehu Road",
   "Alandi Road", "Sangvi", "Ravet", "Pimple Saudagar", "Pimple Nilakh"]

/-- `gym_name_components['prefixes']`. -/
def gym_name_pre : List String :=
  ["Gold\x27s", "Anytime", "Planet", "Fitness First", "Talwalkars", "Snap",
   "LA Fitness", "Body Fuel", "Iron Paradise", "Muscle Factory", "Power Zone",
   "Flex", "Elite", "Prime", "Apex", "Titan", "Warrior", "Champion",
   "Victory", "Supreme", "Ultimate", "Royal", "Diamond", "Platinum"]

/-- `gym_name_components['middle']`. -/
def gym_name_middle : List String :=
  ["Fitness", "Gym", "Health", "Wellness", "Body", "Muscle", "Power",
   "Strength", "Training", "Sports", "Performance", "Athletic"]

/-- `gym_name_components['suffixes']`. -/
def gym_name_suf : List String :=
  ["Club", "Center", "Studio", "Academy", "Institute", "Zone",
   "Arena", "Complex", "Hub", "Point", "Palace", "Empire"]

/-- `clinic_name_components['prefixes']`. -/
def clinic_name_pre : List String :=
  ["Apollo", "Fortis", "Max", "Narayana", "Manipal", "Care", "KIMS",
   "Cloudnine", "Rainbow", "Motherhood", "Nova", "Medanta", "Asian",
   "Global", "City", "Metro", "Prime", "Elite", "Advanced", "Modern"]

/-- `clinic_name_components['specialties']`. -/
def clinic_name_specialties : List String :=
  ["Multi-Specialty", "Cardiology", "Orthopedic", "Neurology",
   "Gastroenterology", "Dermatology", "Pediatric", "Gynecology",
   "ENT", "Ophthalmology", "Dental", "Physiotherapy", "Diagnostic"]

/-- `clinic_name_components['suffixes']`. -/
def clinic_name_suf : List String :=
  ["Hospital", "Clinic", "Medical Center", "Healthcare", "Diagnostics",
   "Medical Institute", "Health Center", "Care Center", "Medical Hub"]

/-- Keys of `business_categories['gyms']`, in dict order. -/
def gym_categories : List String :=
  ["Traditional Gym", "Health Club/Wellness", "Functional Fitness",
   "Women-Only Gym", "Yoga/Pilates Studio", "Martial Arts/Boxing"]

/-- Values of `business_categories['gyms']`. -/
def gym_weights : List ℚ := [0.40, 0.25, 0.15, 0.10, 0.07, 0.03]

/-- Keys of `business_categories['clinics']`, in dict order. -/
def clinic_categories : List String :=
  ["Multi-Specialty Hospital", "Specialty Clinic", "Diagnostic Center",
   "Physiotherapy Clinic", "Wellness Center"]

/-- Values of `business_categories['clinics']`. -/
def clinic_weights : List ℚ := [0.20, 0.35, 0.25, 0.15, 0.05]

/-- The gym-like category list that `generate_business_name` tests
membership of to pick the gym naming branch. -/
def gym_type_list : List String :=
  ["Traditional Gym", "Health Club/Wellness", "Functional Fitness",
   "Women-Only Gym", "Yoga/Pilates Studio", "Martial Arts/Boxing"]

/-- `premium_areas` in `categorize_area_tier`. -/
def premium_areas : List String :=
  ["Koregaon Park", "Baner", "Aundh", "Kalyani Nagar", "Viman Nagar", "Magarpatta"]

/-- `mid_tier_areas` in `categorize_area_tier`. -/
def mid_tier_areas : List String :=
  ["Kothrud", "Shivaji Nagar", "Camp", "Deccan", "Wakad", "Hinjewadi"]

/-- `categorize_area_tier`: premium list to 1, mid-tier list to 2,
anything else to 3. -/
def categorize_area_tier (area : String) : ℤ :=
  if area ∈ premium_areas then 1
  else if area ∈ mid_tier_areas then 2
  else 3

/-- The doctor surnames of the third clinic naming pattern. -/
def doctor_names : List String := ["Sharma", "Patel", "Kumar", "Singh", "Agarwal"]

/-- The gym naming pattern selected by `random.choice(patterns)`; `k` is
the chosen index (always below 5 for a unit draw, so the default arm
repeats pattern 4). -/
def run_gym_pattern (area : String) (k : ℕ) (s : RandSrc) : String × RandSrc :=
  match k with
  | 0 =>
    let p := choiceD gym_name_pre "" s
    let m := choiceD gym_name_middle "" p.2
    (p.1 ++ " " ++ m.1, m.2)
  | 1 =>
    let p := choiceD gym_name_pre "" s
    let f := choiceD gym_name_suf "" p.2
    (p.1 ++ " " ++ f.1, f.2)
  | 2 =>
    let m := choiceD gym_name_middle "" s
    let f := choiceD gym_name_suf "" m.2
    (m.1 ++ " " ++ f.1, f.2)
  | 3 =>
    let m := choiceD gym_name_middle "" s
    let f := choiceD gym_name_suf "" m.2
    (area ++ " " ++ m.1 ++ " " ++ f.1, f.2)
  | _ =>
    let p := choiceD gym_name_pre "" s
    let m := choiceD gym_name_middle "" p.2
    let f := choiceD gym_name_suf "" m.2
    (p.1 ++ " " ++ m.1 ++ " " ++ f.1, f.2)

/-- The clinic naming pattern selected by `random.choice(patterns)`; `k`
is the chosen index (always below 4 for a unit draw). -/
def run_clinic_pattern (area : String) (k : ℕ) (s : RandSrc) : String × RandSrc :=
  match k with
  | 0 =>
    let p := choiceD clinic_name_pre "" s
    let f := choiceD clinic_name_suf "" p.2
    (p.1 ++ " " ++ f.1, f.2)
  | 1 =>
    let f := choiceD clinic_name_suf "" s
    (area ++ " " ++ f.1, f.2)
  | 2 =>
    let d := choiceD doctor_names "" s
    let f := choiceD clinic_name_suf "" d.2
    ("Dr. " ++ d.1 ++ " " ++ f.1, f.2)
  | _ =>
    let p := choiceD clinic_name_pre "" s
    let c := choiceD clinic_name_specialties "" p.2
    let f := choiceD clinic_name_suf "" c.2
    (p.1 ++ " " ++ c.1 ++ " " ++ f.1, f.2)

/-- `generate_business_name`: one draw picks a pattern, the pattern draws
its lexical components, and certain categories apply a further
probabilistic post-edit. -/
def generate_business_name (business_type area : String) (s : RandSrc) : String × RandSrc :=
  if business_type ∈ gym_type_list then
    let k := (unitIdx (s 0) 5, s.tl)
    let base := run_gym_pattern area k.1 k.2
    if business_type = "Women-Only Gym" then
      let q := pyRandom base.2
      (if q.1 < 0.7 then base.1 ++ " - Ladies Only" else base.1, q.2)
    else if business_type = "Yoga/Pilates Studio" then
      let q := pyRandom base.2
      (if q.1 < 0.6 then pyReplace (pyReplace base.1 "Gym" "Yoga Studio") "Fitness" "Yoga"
       else base.1, q.2)
    else if business_type = "Martial Arts/Boxing" then
      let q := pyRandom base.2
      (if q.1 < 0.8 then base.1 ++ " & Martial Arts" else base.1, q.2)
    else base
  else
    let k := (unitIdx (s 0) 4, s.tl)
    run_clinic_pattern area k.1 k.2

/-- `street_types` in `generate_realistic_address`. -/
def street_types_list : List String := ["Road", "Lane", "Street", "Marg", "Path", "Galli"]

/-- `building_types` in `generate_realistic_address`. -/
def building_types_list : List String :=
  ["Plaza", "Complex", "Tower", "Apartment", "Building", "Center", "Mall"]

/-- The street-name bank in `generate_realistic_address`. -/
def street_name_list : List String := ["MG", "FC", "JM", "Survey No.", "Plot No.", "Shop No."]

/-- The building-name bank in `generate_realistic_address`. -/
def building_name_list : List String :=
  ["Sunrise", "Sunset", "Royal", "Imperial", "Grand", "Star", "Diamond", "Golden"]

/-- `generate_realistic_address`: street components, a 60% coin for the
named-building form, and a PIN code suffix. -/
def generate_realistic_address (area : String) (s : RandSrc) : String × RandSrc :=
  let n := randint 1 999 s
  let sn := choiceD street_name_list "" n.2
  let st := choiceD street_types_list "" sn.2
  let coin := pyRandom st.2
  if coin.1 < 0.6 then
    let bn := choiceD building_name_list "" coin.2
    let bt := choiceD building_types_list "" bn.2
    let pin := randint 411001 411061 bt.2
    (bn.1 ++ " " ++ bt.1 ++ ", " ++ sn.1 ++ " " ++ toString n.1 ++ ", " ++ area ++ ", Pune"
      ++ " - " ++ toString pin.1, pin.2)
  else
    let pin := randint 411001 411061 coin.2
    (sn.1 ++ " " ++ toString n.1 ++ ", " ++ st.1 ++ ", " ++ area ++ ", Pune"
      ++ " - " ++ toString pin.1, pin.2)

/-- The valid-mobile 2-digit bank in `generate_phone_number`. -/
def phone_pre_list : List String :=
  ["98", "99", "97", "96", "95", "94", "93", "92", "91", "90",
   "89", "88", "87", "86", "85", "84", "83", "82", "81", "80"]

/-- The 8 joined random digits of `generate_phone_number`. -/
def randDigits : ℕ → RandSrc → String × RandSrc
  | 0, s => ("", s)
  | n + 1, s =>
    let d := randint 0 9 s
    let rest := randDigits n d.2
    (toString d.1 ++ rest.1, rest.2)

/-- `generate_phone_number`: a 2-digit valid-mobile bank element followed
by 8 random digits. -/
def generate_phone_number (s : RandSrc) : String × RandSrc :=
  let p := choiceD phone_pre_list "" s
  let ds := randDigits 8 p.2
  (p.1 ++ ds.1, ds.2)

/-- `base_ratings` in `generate_rating`, with the `.get` default 3.8. -/
def base_ratings (business_type : String) : ℚ :=
  if business_type = "Traditional Gym" then 3.8
  else if business_type = "Health Club/Wellness" then 4.1
  else if business_type = "Functional Fitness" then 4.0
  else if business_type = "Women-Only Gym" then 3.9
  else if business_type = "Yoga/Pilates Studio" then 4.2
  else if business_type = "Martial Arts/Boxing" then 3.7
  else if business_type = "Multi-Specialty Hospital" then 4.0
  else if business_type = "Specialty Clinic" then 4.1
  else if business_type = "Diagnostic Center" then 3.9
  else if business_type = "Physiotherapy Clinic" then 4.0
  else if business_type = "Wellness Center" then 4.2
  else 3.8

/-- `area_adjustment` in `generate_rating`, with the `.get` default 0. -/
def area_adjustment (tier : ℤ) : ℚ :=
  if tier = 1 then 0.3 else if tier = 2 then 0.0 else if tier = 3 then -0.2 else 0

/-- The value `generate_rating` computes from its one uniform draw `q`:
base plus area adjustment plus `uniform(-0.5, 0.5)`, clamped into
`[1, 5]` and rounded to one decimal. -/
def rating_value (business_type : String) (tier : ℤ) (q : ℚ) : ℚ :=
  pyRound1 (max 1.0 (min 5.0 (base_ratings business_type + area_adjustment tier + (-0.5 + q))))

/-- `generate_rating`: consumes the one `uniform(-0.5, 0.5)` draw. -/
def generate_rating (business_type : String) (tier : ℤ) (s : RandSrc) : ℚ × RandSrc :=
  (rating_value business_type tier (s 0), s.tl)

/-- `domains` in `generate_website`. -/
def site_domains : List String := [".com", ".in", ".co.in", ".org"]

/-- The cleaning `generate_website` applies to its argument: lowercase,
drop spaces and hyphens, spell out ampersands, keep only alphanumerics,
truncate to 15 characters. -/
def clean_site_name (name : String) : String :=
  takeStr 15 ⟨(pyReplace (pyReplace (pyReplace (lowerStr name) " " "") "&" "and") "-" "").data.filter Char.isAlphanum⟩

/-- The URL `generate_website` builds when the 40% coin lands: the cleaned
argument between `www.` and a domain picked by the draw `q`. -/
def website_value (name : String) (q : ℚ) : String :=
  "www." ++ clean_site_name name ++ site_domains.getD (unitIdx q 4) ".com"

/-- `generate_website`: present with probability 0.4, in which case one
more draw picks the domain; absent (Python `None`) otherwise. -/
def generate_website (name : String) (s : RandSrc) : Option String × RandSrc :=
  if s 0 < 0.4 then (some (website_value name (s 1)), s.tl.tl) else (none, s.tl)

/-- The weight table of `generate_establishment_year`: fixed tables for 6
and 5 decade buckets, otherwise the renormalized recency-biased fallback. -/
def establishment_weights (n : ℕ) : List ℚ :=
  if n = 6 then [0.05, 0.10, 0.15, 0.20, 0.35, 0.15]
  else if n = 5 then [0.10, 0.15, 0.20, 0.30, 0.25]
  else
    let ws := (List.range n).map fun i =>
      if i < n - 3 then (0.05 : ℚ) else if i < n - 1 then 0.25 else 0.40
    ws.map fun w => w / ws.sum

/-- `generate_establishment_year`: the decade list `range(1970, year, 10)`,
a weighted decade choice, then a uniform year within the decade clamped
below the current year. -/
def generate_establishment_year (year : ℤ) (s : RandSrc) : ℤ × RandSrc :=
  let n := ((year - 1970).toNat + 9) / 10
  let decades := (List.range n).map fun k => (1970 : ℤ) + 10 * k
  let c := weightedChoiceD decades (establishment_weights n) 0 s
  randint c.1 (min (c.1 + 9) (year - 1)) c.2

/-- `employee_ranges` in `generate_employee_count`, with the `.get`
default `(5, 25)`. -/
def employee_range (business_type : String) : ℤ × ℤ :=
  if business_type = "Traditional Gym" then (5, 25)
  else if business_type = "Health Club/Wellness" then (10, 50)
  else if business_type = "Functional Fitness" then (3, 15)
  else if business_type = "Women-Only Gym" then (4, 20)
  else if business_type = "Yoga/Pilates Studio" then (2, 10)
  else if business_type = "Martial Arts/Boxing" then (3, 12)
  else if business_type = "Multi-Specialty Hospital" then (50, 500)
  else if business_type = "Specialty Clinic" then (5, 30)
  else if business_type = "Diagnostic Center" then (8, 40)
  else if business_type = "Physiotherapy Clinic" then (3, 15)
  else if business_type = "Wellness Center" then (5, 25)
  else (5, 25)

/-- `generate_employee_count`: uniform in the category range. -/
def generate_employee_count (business_type : String) (s : RandSrc) : ℤ × RandSrc :=
  randint (employee_range business_type).1 (employee_range business_type).2 s

/-- One row of the assembled table: the keys of the business dict built in
`generate_comprehensive_dataset`, before the derived market-metrics
columns are added. `rating`, `address` and `phone` start present and may
be nulled by the missingness injection; `website` may already be absent
at generation time. -/
structure Business where
  business_id : String
  business_name : String
  business_type : String
  business_category : String
  rating : Option ℚ
  address : Option String
  area : String
  area_tier : ℤ
  phone : Option String
  website : Option String
  established_year : ℤ
  employee_count : ℤ
  extraction_method : String
  data_source : String
  deriving DecidableEq, Inhabited, Repr

/-- One iteration of the gym loop of `generate_comprehensive_dataset`:
`i` is the 0-based loop index. Draws happen in source order: area,
weighted category, name, rating, address, phone, website (note the source
passes the placeholder `f"gym_{i}"`, not the business name), establishment
year, employee count. -/
def mkGym (year : ℤ) (i : ℕ) (s : RandSrc) : Business × RandSrc :=
  let ar := choiceD pune_areas "" s
  let tier := categorize_area_tier ar.1
  let cat := weightedChoiceD gym_categories gym_weights "" ar.2
  let nm := generate_business_name cat.1 ar.1 cat.2
  let rt := generate_rating cat.1 tier nm.2
  let ad := generate_realistic_address ar.1 rt.2
  let ph := generate_phone_number ad.2
  let wb := generate_website ("gym_" ++ toString i) ph.2
  let ey := generate_establishment_year year wb.2
  let ec := generate_employee_count cat.1 ey.2
  ({ business_id := "GYM_" ++ pad4 (i + 1)
     business_name := nm.1
     business_type := "Gym/Fitness"
     business_category := cat.1
     rating := some rt.1
     address := some ad.1
     area := ar.1
     area_tier := tier
     phone := some ph.1
     website := wb.1
     established_year := ey.1
     employee_count := ec.1
     extraction_method := "enhanced_generator"
     data_source := "synthetic_realistic" }, ec.2)

/-- One iteration of the clinic loop of `generate_comprehensive_dataset`
(the website placeholder is `f"clinic_{i}"`). -/
def mkClinic (year : ℤ) (i : ℕ) (s : RandSrc) : Business × RandSrc :=
  let ar := choiceD pune_areas "" s
  let tier := categorize_area_tier ar.1
  let cat := weightedChoiceD clinic_categories clinic_weights "" ar.2
  let nm := generate_business_name cat.1 ar.1 cat.2
  let rt := generate_rating cat.1 tier nm.2
  let ad := generate_realistic_address ar.1 rt.2
  let ph := generate_phone_number ad.2
  let wb := generate_website ("clinic_" ++ toString i) ph.2
  let ey := generate_establishment_year year wb.2
  let ec := generate_employee_count cat.1 ey.2
  ({ business_id := "CLI_" ++ pad4 (i + 1)
     business_name := nm.1
     business_type := "Healthcare/Clinic"
     business_category := cat.1
     rating := some rt.1
     address := some ad.1
     area := ar.1
     area_tier := tier
     phone := some ph.1
     website := wb.1
     established_year := ey.1
     employee_count := ec.1
     extraction_method := "enhanced_generator"
     data_source := "synthetic_realistic" }, ec.2)

/-- `for i in range(...)` over a record maker: `mk` is run at indices
`i, i+1, ..., i+n-1`, threading the random source, and the records are
appended in generation order. -/
def genList (mk : ℕ → RandSrc → Business × RandSrc) : ℕ → ℕ → RandSrc → List Business × RandSrc
  | _, 0, s => ([], s)
  | i, n + 1, s =>
    let b := mk i s
    let rest := genList mk (i + 1) n b.2
    (b.1 :: rest.1, rest.2)

/-- The assembly phase of `generate_comprehensive_dataset`: the gym loop
then the clinic loop, both over `range(count)` (so a negative count runs
zero iterations), collected into `all_businesses` in order. -/
def dataset_rows (year : ℤ) (total_gyms total_clinics : ℤ) (py : RandSrc) :
    List Business × RandSrc :=
  let gyms := genList (mkGym year) 0 total_gyms.toNat py
  let clinics := genList (mkClinic year) 0 total_clinics.toNat gyms.2
  (gyms.1 ++ clinics.1, clinics.2)

/-- The masking `_add_realistic_missing_data` applies to the row at
position `j` of an `n`-row table: the three boolean masks are three
`np.random.random(len(df))` arrays drawn in column order (phone, address,
rating), so the phone coin of row `j` is draw `j`, the address coin is
draw `n + j` and the rating coin is draw `2n + j`. -/
def missingMask (n : ℕ) (np : RandSrc) (j : ℕ) (r : Business) : Business :=
  { r with
    phone := if np j < 0.05 then none else r.phone
    address := if np (n + j) < 0.02 then none else r.address
    rating := if np (2 * n + j) < 0.08 then none else r.rating }

/-- The row walk of `_add_realistic_missing_data`: `j` is the position of
the head of `l` in the full `n`-row table. -/
def missingAux (n : ℕ) (np : RandSrc) : ℕ → List Business → List Business
  | _, [] => []
  | j, r :: rest => missingMask n np j r :: missingAux n np (j + 1) rest

/-- `_add_realistic_missing_data`: nulls `phone`, `address` and `rating`
per row with probabilities 0.05, 0.02 and 0.08, from the NumPy source. -/
def add_realistic_missing_data (rows : List Business) (np : RandSrc) : List Business :=
  missingAux rows.length np 0 rows

/-- A row after `_add_market_dynamics` has added the three derived
columns. -/
structure FullBusiness extends Business where
  area_competition_level : ℕ
  market_penetration : ℚ
  growth_potential : ℚ
  deriving DecidableEq, Inhabited, Repr

/-- The frequency join `df['area'].map(df['area'].value_counts())`: the
number of rows of `rows` whose `area` equals `a`. -/
def countArea (rows : List Business) (a : String) : ℕ :=
  (rows.filter fun r => r.area = a).length

/-- `tier_adjustment` in `_calculate_market_penetration`, with the `.get`
default 0. -/
def tier_adjustment (tier : ℤ) : ℚ :=
  if tier = 1 then -1.0 else if tier = 2 then 0.0 else if tier = 3 then 1.0 else 0

/-- The competition step of `_calculate_market_penetration`: the
`>15 / >10 / <5` ladder applied to `area_competition_level`. -/
def competition_adjustment (comp : ℕ) : ℚ :=
  if comp > 15 then -2.0 else if comp > 10 then -1.0 else if comp < 5 then 1.0 else 0

/-- The score `_calculate_market_penetration` accumulates before its final
clamp: base 5.0, plus the tier adjustment, plus the competition step. -/
def raw_market_penetration (tier : ℤ) (comp : ℕ) : ℚ :=
  5.0 + tier_adjustment tier + competition_adjustment comp

/-- `_calculate_market_penetration`: the accumulated score clamped into
`[1, 10]`. -/
def calculate_market_penetration (tier : ℤ) (comp : ℕ) : ℚ :=
  max 1.0 (min 10.0 (raw_market_penetration tier comp))

/-- The score `_calculate_growth_potential` accumulates before its final
clamp: base 6.0, a recency adjustment from `current_year -
established_year`, and a rating adjustment applied only when the rating
is present (`pd.notna`). -/
def raw_growth_potential (year est : ℤ) (rating : Option ℚ) : ℚ :=
  6.0
    + (if year - est < 5 then 2.0 else if year - est < 10 then 1.0
       else if year - est > 25 then -1.0 else 0)
    + (match rating with
       | some r => if r ≥ 4.5 then 1.0 else if r < 3.0 then -2.0 else 0
       | none => 0)

/-- `_calculate_growth_potential`: the accumulated score clamped into
`[1, 10]`. -/
def calculate_growth_potential (year est : ℤ) (rating : Option ℚ) : ℚ :=
  max 1.0 (min 10.0 (raw_growth_potential year est rating))

/-- The per-row enrichment of `_add_market_dynamics` over table `all`:
the competition column is the area frequency join, and the two scores are
the row-wise `apply` of the two calculators (the penetration one reads
the just-added competition value). -/
def enrich (year : ℤ) (all : List Business) (r : Business) : FullBusiness :=
  { r with
    area_competition_level := countArea all r.area
    market_penetration := calculate_market_penetration r.area_tier (countArea all r.area)
    growth_potential := calculate_growth_potential year r.established_year r.rating }

/-- `_add_market_dynamics` on a table whose `area` column exists: adds the
three derived columns row-wise. -/
def add_market_dynamics (year : ℤ) (rows : List Business) : List FullBusiness :=
  rows.map (enrich year rows)

/-- The column set of the pandas frame `pd.DataFrame(all_businesses)`:
the record keys when the record list is non-empty; a frame built from an
empty list has no columns at all. -/
def dataFrameColumns (rows : List Business) : List String :=
  if rows.isEmpty then []
  else
    ["business_id", "business_name", "business_type", "business_category",
     "rating", "address", "area", "area_tier", "phone", "website",
     "established_year", "employee_count", "extraction_method", "data_source"]

/-- The post-assembly phase of `generate_comprehensive_dataset`: the
missingness injection (whose `.loc` writes enlarge the frame and do not
raise), then `_add_market_dynamics`, whose first operation
`df['area'].value_counts()` raises `KeyError` when the frame has no
`area` column - which is the case exactly when the assembled record list
is empty. -/
def run_market_metrics (year : ℤ) (rows : List Business) (np : RandSrc) :
    Except String (List FullBusiness) :=
  let rows2 := add_realistic_missing_data rows np
  if "area" ∈ dataFrameColumns rows then Except.ok (add_market_dynamics year rows2)
  else Except.error "KeyError: area"

/-- `generate_comprehensive_dataset`: assembly from the `random`-module
source `py`, then missingness and market dynamics using the `np.random`
source `np`. -/
def generate_comprehensive_dataset (year : ℤ) (total_gyms total_clinics : ℤ)
    (py np : RandSrc) : Except String (List FullBusiness) :=
  run_market_metrics year (dataset_rows year total_gyms total_clinics py).1 np

/-- The market-penetration formula exactly as the specification words it
(for the tier values 1-3 it defines): `clamp(5.0 +
tierAdjustment2[area_tier] + competitionAdjustment(area_competition_level),
1.0, 10.0)` with `tierAdjustment2 = {1: -1.0, 2: 0.0, 3: +1.0}` and the
step function `>15 → -2.0`, `>10 → -1.0`, `<5 → +1.0`, else `0.0`. Stated
from the spec for comparison against `calculate_market_penetration`. -/
def spec_market_penetration (tier : ℤ) (comp : ℕ) : ℚ :=
  max 1.0 (min 10.0
    ((5.0 + (if tier = 1 then -1.0 else if tier = 2 then 0.0 else 1.0))
      + (if comp > 15 then -2.0 else if comp > 10 then -1.0 else if comp < 5 then 1.0 else 0.0)))

/-- The all-zeros draw stream (every unit draw lands at 0). -/
def zeroSrc : RandSrc := fun _ => 0

/-- The all-halves draw stream (every unit draw lands at 1/2). -/
def halfSrc : RandSrc := fun _ => 1/2

/-- A concrete one-gym run: `random`-module draws all 0, NumPy draws all
1/2 (so no field is nulled). -/
def sampleTable : List FullBusiness :=
  (generate_comprehensive_dataset 2025 1 0 zeroSrc halfSrc).toOption.getD []

/-- The single row of `sampleTable`. -/
def sampleRow : FullBusiness := sampleTable.headI

/-- A concrete assembled row (pre-metrics), used to exercise the
non-empty path of the metrics engine. -/
def sampleBusiness : Business := (mkGym 2025 0 zeroSrc).1

deriving instance DecidableEq for Except

lemma stringDataInj {x y : String} (h : x.data = y.data) : x = y := by
  cases x; cases y; cases h; rfl

lemma roundHalfEven_bounds {a b : ℤ} {q : ℚ} (ha : (a : ℚ) ≤ q) (hb : q ≤ (b : ℚ)) :
    a ≤ roundHalfEven q ∧ roundHalfEven q ≤ b := by
  have hfa : a ≤ ⌊q⌋ := Int.le_floor.mpr ha
  have hfb : ⌊q⌋ ≤ b := by
    have := Int.floor_le_floor hb
    rwa [Int.floor_intCast] at this
  have hfl : (⌊q⌋ : ℚ) ≤ q := Int.floor_le q
  unfold roundHalfEven
  split
  · exact ⟨hfa, hfb⟩
  next hge =>
    have h1 : (1 : ℚ) / 2 ≤ q - ⌊q⌋ := le_of_not_lt hge
    have hup : ⌊q⌋ + 1 ≤ b := by
      have h2 : (⌊q⌋ : ℚ) < (b : ℚ) := by linarith
      have h3 : ⌊q⌋ < b := by exact_mod_cast h2
      omega
    split
    · exact ⟨le_trans hfa (by omega), hup⟩
    · split
      · exact ⟨hfa, hfb⟩
      · exact ⟨le_trans hfa (by omega), hup⟩

lemma pyRound1_bounds {a b : ℤ} {q : ℚ} (ha : (a : ℚ) ≤ q) (hb : q ≤ (b : ℚ)) :
    (a : ℚ) ≤ pyRound1 q ∧ pyRound1 q ≤ (b : ℚ) := by
  have h10 : ((10 * a : ℤ) : ℚ) ≤ 10 * q := by push_cast; linarith
  have h10b : 10 * q ≤ ((10 * b : ℤ) : ℚ) := by push_cast; linarith
  obtain ⟨h1, h2⟩ := roundHalfEven_bounds h10 h10b
  have hc1 : ((10 * a : ℤ) : ℚ) ≤ (roundHalfEven (10 * q) : ℚ) := by exact_mod_cast h1
  have hc2 : (roundHalfEven (10 * q) : ℚ) ≤ ((10 * b : ℤ) : ℚ) := by exact_mod_cast h2
  push_cast at hc1 hc2
  unfold pyRound1
  constructor
  · rw [le_div_iff₀ (by norm_num : (0:ℚ) < 10)]
    linarith
  · rw [div_le_iff₀ (by norm_num : (0:ℚ) < 10)]
    linarith

lemma rating_value_range (bt : String) (ti : ℤ) (q : ℚ) :
    1 ≤ rating_value bt ti q ∧ rating_value bt ti q ≤ 5 := by
  unfold rating_value
  set x := base_ratings bt + area_adjustment ti + (-0.5 + q) with hx
  have h1 : (1 : ℚ) ≤ max 1.0 (min 5.0 x) := le_max_left 1.0 (min 5.0 x)
  have h5 : max 1.0 (min 5.0 x) ≤ 5 := max_le (by norm_num) (min_le_left 5.0 x)
  have := pyRound1_bounds (a := 1) (b := 5) (by exact_mod_cast h1) (by exact_mod_cast h5)
  exact_mod_cast this

lemma calculate_market_penetration_range (t : ℤ) (c : ℕ) :
    1 ≤ calculate_market_penetration t c ∧ calculate_market_penetration t c ≤ 10 := by
  unfold calculate_market_penetration
  exact ⟨le_max_left 1.0 _, max_le (by norm_num) (min_le_left 10.0 _)⟩

lemma calculate_growth_potential_range (y e : ℤ) (r : Option ℚ) :
    1 ≤ calculate_growth_potential y e r ∧ calculate_growth_potential y e r ≤ 10 := by
  unfold calculate_growth_potential
  exact ⟨le_max_left 1.0 _, max_le (by norm_num) (min_le_left 10.0 _)⟩

lemma tier_adjustment_bounds (t : ℤ) : -1 ≤ tier_adjustment t ∧ tier_adjustment t ≤ 1 := by
  unfold tier_adjustment
  split <;> [skip; split] <;> [norm_num; skip; skip] <;> [norm_num; split] <;> norm_num

lemma competition_adjustment_bounds (c : ℕ) :
    -2 ≤ competition_adjustment c ∧ competition_adjustment c ≤ 1 := by
  unfold competition_adjustment
  split
  · norm_num
  · split
    · norm_num
    · split <;> norm_num

lemma raw_market_penetration_bounds (t : ℤ) (c : ℕ) :
    2 ≤ raw_market_penetration t c ∧ raw_market_penetration t c ≤ 7 := by
  obtain ⟨h1, h2⟩ := tier_adjustment_bounds t
  obtain ⟨h3, h4⟩ := competition_adjustment_bounds c
  unfold raw_market_penetration
  constructor <;> [norm_num; norm_num] <;> linarith

lemma market_penetration_clamp_inactive (t : ℤ) (c : ℕ) :
    calculate_market_penetration t c = raw_market_penetration t c := by
  obtain ⟨h1, h2⟩ := raw_market_penetration_bounds t c
  unfold calculate_market_penetration
  rw [min_eq_right (by linarith), max_eq_right (by linarith)]

lemma raw_growth_potential_bounds (y e : ℤ) (r : Option ℚ) :
    3 ≤ raw_growth_potential y e r ∧ raw_growth_potential y e r ≤ 9 := by
  unfold raw_growth_potential
  have hrec : -1 ≤ (if y - e < 5 then (2.0:ℚ) else if y - e < 10 then 1.0
      else if y - e > 25 then -1.0 else 0)
      ∧ (if y - e < 5 then (2.0:ℚ) else if y - e < 10 then 1.0
      else if y - e > 25 then -1.0 else 0) ≤ 2 := by
    split
    · norm_num
    · split
      · norm_num
      · split <;> norm_num
  have hrat : -2 ≤ (match r with
      | some v => if v ≥ 4.5 then (1.0:ℚ) else if v < 3.0 then -2.0 else 0
      | none => 0)
      ∧ (match r with
      | some v => if v ≥ 4.5 then (1.0:ℚ) else if v < 3.0 then -2.0 else 0
      | none => 0) ≤ 1 := by
    match r with
    | none => norm_num
    | some v =>
      simp only
      split
      · norm_num
      · split <;> norm_num
  obtain ⟨a1, a2⟩ := hrec
  obtain ⟨b1, b2⟩ := hrat
  constructor <;> linarith

lemma growth_potential_clamp_inactive (y e : ℤ) (r : Option ℚ) :
    calculate_growth_potential y e r = raw_growth_potential y e r := by
  obtain ⟨h1, h2⟩ := raw_growth_potential_bounds y e r
  unfold calculate_growth_potential
  rw [min_eq_right (by linarith), max_eq_right (by linarith)]

lemma categorize_area_tier_cases (a : String) :
    categorize_area_tier a = 1 ∨ categorize_area_tier a = 2 ∨ categorize_area_tier a = 3 := by
  unfold categorize_area_tier
  split
  · exact Or.inl rfl
  · split
    · exact Or.inr (Or.inl rfl)
    · exact Or.inr (Or.inr rfl)

lemma spec_market_penetration_agrees {t : ℤ} (h : t = 1 ∨ t = 2 ∨ t = 3) (c : ℕ) :
    calculate_market_penetration t c = spec_market_penetration t c := by
  rcases h with rfl | rfl | rfl <;> rfl

lemma natDigitsAux_eq_digits (fuel : ℕ) : ∀ n, n ≤ fuel → natDigitsAux fuel n = Nat.digits 10 n := by
  induction fuel with
  | zero =>
    intro n hn
    interval_cases n
    simp [natDigitsAux]
  | succ f ih =>
    intro n hn
    match n with
    | 0 => simp [natDigitsAux]
    | m + 1 =>
      have hdiv : (m + 1) / 10 ≤ f := by
        have := Nat.div_lt_self (Nat.succ_pos m) (by norm_num : 1 < 10)
        omega
      rw [show natDigitsAux (f + 1) (m + 1) = (m + 1) % 10 :: natDigitsAux f ((m + 1) / 10) from rfl,
        ih _ hdiv, ← Nat.digits_def' (by norm_num : 1 < 10) (Nat.succ_pos m)]

lemma natDigits_eq_digits (n : ℕ) : natDigits n = Nat.digits 10 n :=
  natDigitsAux_eq_digits n n le_rfl

lemma digitChar_val {d : ℕ} (h : d < 10) : (Nat.digitChar d).toNat - 48 = d := by
  interval_cases d <;> rfl

lemma ofDigits_replicate_zero (k : ℕ) : Nat.ofDigits 10 (List.replicate k 0) = 0 := by
  induction k with
  | zero => rfl
  | succ m ih => simp [List.replicate_succ, Nat.ofDigits_cons, ih]

lemma pad4_decode (n : ℕ) :
    Nat.ofDigits 10 (((pad4 n).data.map fun c => c.toNat - 48).reverse) = n := by
  have hchars : (natChars n).map (fun c => c.toNat - 48) = (Nat.digits 10 n).reverse := by
    unfold natChars
    rw [natDigits_eq_digits, List.map_map]
    have : ∀ d ∈ (Nat.digits 10 n).reverse, ((fun c => c.toNat - 48) ∘ Nat.digitChar) d = id d := by
      intro d hd
      have hdlt : d < 10 := Nat.digits_lt_base (by norm_num) (List.mem_reverse.mp hd)
      simpa using digitChar_val hdlt
    rw [List.map_congr_left this, List.map_id]
  have hdata : (pad4 n).data
      = List.replicate (4 - (natChars n).length) '0' ++ natChars n := rfl
  rw [hdata, List.map_append, List.reverse_append, hchars, List.reverse_reverse]
  have hrep : (List.replicate (4 - (natChars n).length) '0').map (fun c => c.toNat - 48)
      = List.replicate (4 - (natChars n).length) 0 := by
    rw [List.map_replicate]; rfl
  rw [hrep, List.reverse_replicate, Nat.ofDigits_append, ofDigits_replicate_zero,
    Nat.ofDigits_digits]
  ring

lemma pad4_inj : Function.Injective pad4 := by
  intro a b h
  have := congrArg (fun s : String => Nat.ofDigits 10 ((s.data.map fun c => c.toNat - 48).reverse)) h
  simpa [pad4_decode] using this

lemma append_pad4_inj (pre : String) : Function.Injective fun j : ℕ => pre ++ pad4 j := by
  intro a b h
  have hd : pre.data ++ (pad4 a).data = pre.data ++ (pad4 b).data := congrArg String.data h
  exact pad4_inj (stringDataInj (List.append_cancel_left hd))

lemma gym_id_ne_cli_id (a b : ℕ) : "GYM_" ++ pad4 a ≠ "CLI_" ++ pad4 b := by
  intro h
  have hd : ('G' :: 'Y' :: 'M' :: '_' :: (pad4 a).data)
      = ('C' :: 'L' :: 'I' :: '_' :: (pad4 b).data) := congrArg String.data h
  simp at hd

lemma genList_length (mk : ℕ → RandSrc → Business × RandSrc) :
    ∀ n i s, ((genList mk i n s).1).length = n := by
  intro n
  induction n with
  | zero => intro i s; rfl
  | succ m ih =>
    intro i s
    show (((mk i s).1 :: (genList mk (i + 1) m (mk i s).2).1)).length = m + 1
    rw [List.length_cons, ih]

lemma mem_genList {mk : ℕ → RandSrc → Business × RandSrc} :
    ∀ {n i s b}, b ∈ (genList mk i n s).1 → ∃ j t, b = (mk j t).1 := by
  intro n
  induction n with
  | zero => intro i s b hb; cases hb
  | succ m ih =>
    intro i s b hb
    rcases List.mem_cons.mp hb with h | h
    · exact ⟨i, s, h⟩
    · exact ih h

lemma genList_ids (mk : ℕ → RandSrc → Business × RandSrc) (pre : String)
    (hmk : ∀ j t, ((mk j t).1).business_id = pre ++ pad4 (j + 1)) :
    ∀ n i s, ((genList mk i n s).1).map (fun r => r.business_id)
      = (List.range' (i + 1) n).map fun j => pre ++ pad4 j := by
  intro n
  induction n with
  | zero => intro i s; rfl
  | succ m ih =>
    intro i s
    show ((mk i s).1).business_id :: ((genList mk (i + 1) m (mk i s).2).1).map (fun r => r.business_id)
      = (List.range' (i + 1) (m + 1)).map fun j => pre ++ pad4 j
    rw [List.range'_succ, List.map_cons, hmk, ih]

lemma mem_missingAux {n : ℕ} {np : RandSrc} :
    ∀ {l : List Business} {j b}, b ∈ missingAux n np j l → ∃ k r, r ∈ l ∧ b = missingMask n np k r := by
  intro l
  induction l with
  | nil => intro j b hb; cases hb
  | cons x rest ih =>
    intro j b hb
    rcases List.mem_cons.mp hb with h | h
    · exact ⟨j, x, List.mem_cons_self x rest, h⟩
    · obtain ⟨k, r, hr, he⟩ := ih h
      exact ⟨k, r, List.mem_cons_of_mem x hr, he⟩

lemma missingAux_length (n : ℕ) (np : RandSrc) :
    ∀ (l : List Business) (j), (missingAux n np j l).length = l.length := by
  intro l
  induction l with
  | nil => intro j; rfl
  | cons x rest ih => intro j; show _ + 1 = _ + 1; rw [ih]

lemma missingMask_rating (n : ℕ) (np : RandSrc) (j : ℕ) (r : Business) :
    (missingMask n np j r).rating = none ∨ (missingMask n np j r).rating = r.rating := by
  unfold missingMask
  dsimp only
  split
  · exact Or.inl rfl
  · exact Or.inr rfl

lemma mem_add_market_dynamics {year : ℤ} {rows : List Business} {x : FullBusiness}
    (hx : x ∈ add_market_dynamics year rows) : ∃ r ∈ rows, x = enrich year rows r := by
  obtain ⟨r, hr, he⟩ := List.mem_map.mp hx
  exact ⟨r, hr, he.symm⟩

lemma filter_add_market_dynamics (year : ℤ) (rows : List Business) (a : String) :
    ((add_market_dynamics year rows).filter fun x => x.area = a).length = countArea rows a := by
  unfold add_market_dynamics countArea
  rw [← List.countP_eq_length_filter, ← List.countP_eq_length_filter, List.countP_map]
  rfl

lemma dataset_ok (year g c : ℤ) (py np : RandSrc) {t : List FullBusiness}
    (h : generate_comprehensive_dataset year g c py np = Except.ok t) :
    t = add_market_dynamics year
      (add_realistic_missing_data (dataset_rows year g c py).1 np) := by
  unfold generate_comprehensive_dataset run_market_metrics at h
  split at h
  · cases h; rfl
  · cases h

lemma mkGym_rating (year : ℤ) (i : ℕ) (s : RandSrc) :
    ∃ bt ti q, (mkGym year i s).1.rating = some (rating_value bt ti q) := ⟨_, _, _, rfl⟩

lemma mkClinic_rating (year : ℤ) (i : ℕ) (s : RandSrc) :
    ∃ bt ti q, (mkClinic year i s).1.rating = some (rating_value bt ti q) := ⟨_, _, _, rfl⟩

lemma mkGym_tier (year : ℤ) (i : ℕ) (s : RandSrc) :
    (mkGym year i s).1.area_tier = categorize_area_tier (mkGym year i s).1.area := rfl

lemma mkClinic_tier (year : ℤ) (i : ℕ) (s : RandSrc) :
    (mkClinic year i s).1.area_tier = categorize_area_tier (mkClinic year i s).1.area := rfl

lemma row_origin {year g c : ℤ} {py np : RandSrc} {t : List FullBusiness} {x : FullBusiness}
    (h : generate_comprehensive_dataset year g c py np = Except.ok t) (hx : x ∈ t) :
    ∃ k b, x = enrich year
        (add_realistic_missing_data (dataset_rows year g c py).1 np)
        (missingMask (dataset_rows year g c py).1.length np k b)
      ∧ ((∃ j u, b = (mkGym year j u).1) ∨ (∃ j u, b = (mkClinic year j u).1)) := by
  rw [dataset_ok year g c py np h] at hx
  obtain ⟨r, hr, he⟩ := mem_add_market_dynamics hx
  obtain ⟨k, b, hb, hm⟩ := mem_missingAux hr
  refine ⟨k, b, by rw [he, hm], ?_⟩
  rcases List.mem_append.mp hb with hgym | hcli
  · exact Or.inl (mem_genList hgym)
  · exact Or.inr (mem_genList hcli)

lemma table_row_facts {year g c : ℤ} {py np : RandSrc} {t : List FullBusiness} {x : FullBusiness}
    (h : generate_comprehensive_dataset year g c py np = Except.ok t) (hx : x ∈ t) :
    x.area_tier = categorize_area_tier x.area
    ∧ (x.rating = none ∨ ∃ bt ti q, x.rating = some (rating_value bt ti q))
    ∧ x.market_penetration = calculate_market_penetration x.area_tier x.area_competition_level
    ∧ x.growth_potential = calculate_growth_potential year x.established_year x.rating
    ∧ x.area_competition_level = (t.filter fun y => y.area = x.area).length := by
  obtain ⟨k, b, hxe, hb⟩ := row_origin h hx
  subst hxe
  refine ⟨?_, ?_, rfl, rfl, ?_⟩
  · rcases hb with ⟨j, u, rfl⟩ | ⟨j, u, rfl⟩
    · exact mkGym_tier year j u
    · exact mkClinic_tier year j u
  · rcases missingMask_rating (dataset_rows year g c py).1.length np k b with hm | hm
    · exact Or.inl hm
    · rcases hb with ⟨j, u, rfl⟩ | ⟨j, u, rfl⟩
      · have hrat : (enrich year (add_realistic_missing_data (dataset_rows year g c py).1 np)
            (missingMask (dataset_rows year g c py).1.length np k (mkGym year j u).1)).rating
            = (mkGym year j u).1.rating := hm
        rw [hrat]
        exact Or.inr (mkGym_rating year j u)
      · have hrat : (enrich year (add_realistic_missing_data (dataset_rows year g c py).1 np)
            (missingMask (dataset_rows year g c py).1.length np k (mkClinic year j u).1)).rating
            = (mkClinic year j u).1.rating := hm
        rw [hrat]
        exact Or.inr (mkClinic_rating year j u)
  · rw [dataset_ok year g c py np h, filter_add_market_dynamics]
    rfl

/-- Claim C1: after the market-dynamics pass, every row's
`area_competition_level` equals the number of rows of the table with the
same `area`, so any two same-area rows carry identical values. -/
theorem C1_competition_level_counts (year g c : ℤ) (py np : RandSrc) (t : List FullBusiness)
    (x : FullBusiness) (h : generate_comprehensive_dataset year g c py np = Except.ok t)
    (hx : x ∈ t) :
    x.area_competition_level = (t.filter fun y => y.area = x.area).length
    ∧ ∀ y ∈ t, y.area = x.area → y.area_competition_level = x.area_competition_level := by
  have hfx := (table_row_facts h hx).2.2.2.2
  refine ⟨hfx, ?_⟩
  intro y hy hya
  have hfy := (table_row_facts h hy).2.2.2.2
  rw [hfy, hfx]
  simp only [hya]

/-- Witness for C1 on a concrete one-gym run. -/
theorem C1_witness :
    sampleRow.area_competition_level
        = (sampleTable.filter fun y => y.area = sampleRow.area).length
    ∧ ∀ y ∈ sampleTable, y.area = sampleRow.area →
        y.area_competition_level = sampleRow.area_competition_level :=
  C1_competition_level_counts 2025 1 0 zeroSrc halfSrc sampleTable sampleRow (by decide) (by decide)

/-- Claim C2: every row's `market_penetration` equals the specification's
formula `clamp(5.0 + tierAdjustment2[area_tier] +
competitionAdjustment(area_competition_level), 1.0, 10.0)`, and in
particular a tier-1 row with competition level 8 scores 4.0. -/
theorem C2_market_penetration_formula (year g c : ℤ) (py np : RandSrc) (t : List FullBusiness)
    (x : FullBusiness) (h : generate_comprehensive_dataset year g c py np = Except.ok t)
    (hx : x ∈ t) :
    x.market_penetration = spec_market_penetration x.area_tier x.area_competition_level
    ∧ (x.area_tier = 1 → x.area_competition_level = 8 → x.market_penetration = 4) := by
  obtain ⟨htier, -, hmp, -, -⟩ := table_row_facts h hx
  have hcases : x.area_tier = 1 ∨ x.area_tier = 2 ∨ x.area_tier = 3 := by
    rw [htier]; exact categorize_area_tier_cases x.area
  refine ⟨by rw [hmp, spec_market_penetration_agrees hcases], ?_⟩
  intro h1 h8
  rw [hmp, h1, h8]
  decide

/-- Witness for C2 on a concrete one-gym run. -/
theorem C2_witness :
    sampleRow.market_penetration
        = spec_market_penetration sampleRow.area_tier sampleRow.area_competition_level
    ∧ (sampleRow.area_tier = 1 → sampleRow.area_competition_level = 8 →
        sampleRow.market_penetration = 4) :=
  C2_market_penetration_formula 2025 1 0 zeroSrc halfSrc sampleTable sampleRow (by decide) (by decide)

/-- Claim C3: for every generated row, over all draw streams, counts and
years, a present rating lies in `[1, 5]` and both derived scores lie in
`[1, 10]`. -/
theorem C3_scores_in_range (year g c : ℤ) (py np : RandSrc) (t : List FullBusiness)
    (x : FullBusiness) (h : generate_comprehensive_dataset year g c py np = Except.ok t)
    (hx : x ∈ t) :
    (∀ v, x.rating = some v → 1 ≤ v ∧ v ≤ 5)
    ∧ (1 ≤ x.market_penetration ∧ x.market_penetration ≤ 10)
    ∧ (1 ≤ x.growth_potential ∧ x.growth_potential ≤ 10) := by
  obtain ⟨-, hrat, hmp, hgp, -⟩ := table_row_facts h hx
  refine ⟨?_, ?_, ?_⟩
  · intro v hv
    rcases hrat with hn | ⟨bt, ti, q, hs⟩
    · rw [hn] at hv; cases hv
    · rw [hs] at hv
      injection hv with hv
      subst hv
      exact rating_value_range bt ti q
  · rw [hmp]; exact calculate_market_penetration_range _ _
  · rw [hgp]; exact calculate_growth_potential_range year _ _

/-- Witness for C3 on a concrete one-gym run. -/
theorem C3_witness :
    (∀ v, sampleRow.rating = some v → 1 ≤ v ∧ v ≤ 5)
    ∧ (1 ≤ sampleRow.market_penetration ∧ sampleRow.market_penetration ≤ 10)
    ∧ (1 ≤ sampleRow.growth_potential ∧ sampleRow.growth_potential ≤ 10) :=
  C3_scores_in_range 2025 1 0 zeroSrc halfSrc sampleTable sampleRow (by decide) (by decide)

/-- Claim C4 evidence: on a concrete run the generated gym row is named
"Gold's Fitness" yet its website is `www.gym0.com` - the URL stem is the
placeholder `f"gym_{i}"` that `generate_comprehensive_dataset` passes to
`generate_website`, and no choice of domain suffix can reconcile the
website with the cleaning of the row's business name. -/
theorem C4_website_ignores_business_name :
    generate_comprehensive_dataset 2025 1 0 zeroSrc halfSrc = Except.ok sampleTable
    ∧ sampleRow.business_name = "Gold\x27s Fitness"
    ∧ sampleRow.website = some (website_value ("gym_" ++ toString 0) 0)
    ∧ sampleRow.website = some "www.gym0.com"
    ∧ clean_site_name sampleRow.business_name = "goldsfitness"
    ∧ "www.gym0.com" ≠ "www." ++ clean_site_name sampleRow.business_name ++ ".com"
    ∧ "www.gym0.com" ≠ "www." ++ clean_site_name sampleRow.business_name ++ ".in"
    ∧ "www.gym0.com" ≠ "www." ++ clean_site_name sampleRow.business_name ++ ".co.in"
    ∧ "www.gym0.com" ≠ "www." ++ clean_site_name sampleRow.business_name ++ ".org" := by
  decide

/-- Claim C5 counterexample: two runs agreeing on the `random`-module
stream, the year and the configuration, but differing on the NumPy stream
that the missingness injection consumes, produce different tables - a
single seedable source does not determine the output. -/
theorem C5_counterexample :
    generate_comprehensive_dataset 2025 1 0 zeroSrc zeroSrc
      ≠ generate_comprehensive_dataset 2025 1 0 zeroSrc halfSrc := by
  decide

/-- Claim C5 amended: two generation runs agreeing on the states of both
pseudo-random sources (`random` and `np.random`), on the current year and
on the configuration produce identical tables. -/
theorem C5_determinism_both_sources (year1 year2 g1 g2 c1 c2 : ℤ) (py1 py2 np1 np2 : RandSrc)
    (hy : year1 = year2) (hg : g1 = g2) (hc : c1 = c2) (hpy : py1 = py2) (hnp : np1 = np2) :
    generate_comprehensive_dataset year1 g1 c1 py1 np1
      = generate_comprehensive_dataset year2 g2 c2 py2 np2 := by
  subst hy; subst hg; subst hc; subst hpy; subst hnp; rfl

/-- Witness for the amended C5. -/
theorem C5_witness :
    generate_comprehensive_dataset 2025 1 0 zeroSrc halfSrc
      = generate_comprehensive_dataset 2025 1 0 zeroSrc halfSrc :=
  C5_determinism_both_sources 2025 2025 1 1 0 0 zeroSrc zeroSrc halfSrc halfSrc
    rfl rfl rfl rfl rfl

/-- Claim C6 counterexample: the metrics step on an empty table does not
return an empty result - the frame built from an empty record list has no
`area` column, so `df['area'].value_counts()` raises `KeyError`. -/
theorem C6_counterexample :
    run_market_metrics 2025 [] zeroSrc ≠ Except.ok []
    ∧ run_market_metrics 2025 [] zeroSrc = Except.error "KeyError: area" := by
  decide

/-- Claim C6 amended: the metrics pass completes without error exactly on
non-empty tables, returning the missingness-masked rows enriched with the
three derived columns; the zero-row table instead raises `KeyError`. -/
theorem C6_nonempty_metrics_ok (year : ℤ) (rows : List Business) (np : RandSrc)
    (hne : rows ≠ []) :
    run_market_metrics year rows np
      = Except.ok (add_market_dynamics year (add_realistic_missing_data rows np)) := by
  have hempty : rows.isEmpty = false := by
    cases rows with
    | nil => exact absurd rfl hne
    | cons a l => rfl
  have hcol : "area" ∈ dataFrameColumns rows := by
    unfold dataFrameColumns
    rw [hempty]
    decide
  unfold run_market_metrics
  rw [if_pos hcol]

/-- Witness for the amended C6, on a concrete one-row table. -/
theorem C6_witness :
    run_market_metrics 2025 [sampleBusiness] zeroSrc
      = Except.ok (add_market_dynamics 2025 (add_realistic_missing_data [sampleBusiness] zeroSrc)) :=
  C6_nonempty_metrics_ok 2025 [sampleBusiness] zeroSrc (by decide)

/-- Claim C7 counterexample: the invalid configuration `gym_count = -1,
clinic_count = 1` does not fail fast - generation succeeds and returns a
one-row table (the clinic), i.e. partial data with no configuration
error. -/
theorem C7_counterexample :
    (generate_comprehensive_dataset 2025 (-1) 1 zeroSrc zeroSrc).map List.length
      = Except.ok 1 := by
  decide

/-- Claim C7 amended: target counts are not validated; `range` turns a
negative count into zero iterations and the assembly always produces
`toNat gym_count + toNat clinic_count` rows without raising any
configuration error. -/
theorem C7_negative_counts_ignored (year g c : ℤ) (py : RandSrc) :
    (dataset_rows year g c py).1.length = g.toNat + c.toNat := by
  unfold dataset_rows
  rw [List.length_append, genList_length, genList_length]

/-- Claim C8: area-to-tier classification is a pure function into
`{1,2,3}` - premium-list areas to 1, mid-list areas to 2, everything else
(unknown names included) to 3 - and every generated row's `area_tier` is
that function of its `area`. -/
theorem C8_area_tier_classification :
    (∀ a : String, categorize_area_tier a = 1 ∨ categorize_area_tier a = 2
      ∨ categorize_area_tier a = 3)
    ∧ (∀ a ∈ premium_areas, categorize_area_tier a = 1)
    ∧ (∀ a ∈ mid_tier_areas, categorize_area_tier a = 2)
    ∧ (∀ a : String, a ∉ premium_areas → a ∉ mid_tier_areas → categorize_area_tier a = 3)
    ∧ ∀ (year g c : ℤ) (py np : RandSrc) (t : List FullBusiness),
        generate_comprehensive_dataset year g c py np = Except.ok t →
        ∀ x ∈ t, x.area_tier = categorize_area_tier x.area := by
  refine ⟨categorize_area_tier_cases, by decide, by decide, ?_, ?_⟩
  · intro a h1 h2
    unfold categorize_area_tier
    rw [if_neg h1, if_neg h2]
  · intro year g c py np t h x hx
    exact (table_row_facts h hx).1

/-- Witness for C8: a premium area, an unknown area, and a concrete row. -/
theorem C8_witness :
    categorize_area_tier "Baner" = 1
    ∧ categorize_area_tier "Gotham" = 3
    ∧ sampleRow.area_tier = categorize_area_tier sampleRow.area :=
  ⟨C8_area_tier_classification.2.1 "Baner" (by decide),
   C8_area_tier_classification.2.2.2.1 "Gotham" (by decide) (by decide),
   C8_area_tier_classification.2.2.2.2 2025 1 0 zeroSrc halfSrc sampleTable (by decide)
     sampleRow (by decide)⟩

/-- Claim C9: the assembled table has exactly `gym_count + clinic_count`
rows, its ids are per-type sequential (`GYM_0001..`, `CLI_0001..`, each
restarting at 1), and all ids are distinct across the whole table. -/
theorem C9_ids_sequential_unique (year : ℤ) (g c : ℕ) (py : RandSrc) :
    (dataset_rows year g c py).1.length = g + c
    ∧ (dataset_rows year g c py).1.map (fun r => r.business_id)
        = ((List.range' 1 g).map fun j => "GYM_" ++ pad4 j)
          ++ ((List.range' 1 c).map fun j => "CLI_" ++ pad4 j)
    ∧ ((dataset_rows year g c py).1.map fun r => r.business_id).Nodup := by
  have hmapg : ∀ (j : ℕ) (u : RandSrc), ((mkGym year j u).1).business_id = "GYM_" ++ pad4 (j + 1) :=
    fun j u => rfl
  have hmapc : ∀ (j : ℕ) (u : RandSrc), ((mkClinic year j u).1).business_id = "CLI_" ++ pad4 (j + 1) :=
    fun j u => rfl
  have hids : (dataset_rows year g c py).1.map (fun r => r.business_id)
      = ((List.range' 1 g).map fun j => "GYM_" ++ pad4 j)
        ++ ((List.range' 1 c).map fun j => "CLI_" ++ pad4 j) := by
    unfold dataset_rows
    rw [List.map_append, genList_ids _ _ hmapg, genList_ids _ _ hmapc]
    norm_num
  refine ⟨?_, hids, ?_⟩
  · unfold dataset_rows
    rw [List.length_append, genList_length, genList_length]
    norm_num
  · rw [hids]
    refine List.Nodup.append ?_ ?_ ?_
    · exact List.Nodup.map (append_pad4_inj "GYM_") (List.nodup_range' 1 g)
    · exact List.Nodup.map (append_pad4_inj "CLI_") (List.nodup_range' 1 c)
    · intro x hx hy
      obtain ⟨a, ha, rfl⟩ := List.mem_map.mp hx
      obtain ⟨b, hb, hEq⟩ := List.mem_map.mp hy
      exact gym_id_ne_cli_id a b hEq.symm

/-- Claim C10: neither derived score ever touches its `[1, 10]` clamp:
the penetration score always lies in `[2, 7]` and the growth score in
`[3, 9]`, both as functions of arbitrary inputs and on every generated
row. -/
theorem C10_clamp_never_active :
    (∀ (ti : ℤ) (co : ℕ),
      calculate_market_penetration ti co = raw_market_penetration ti co
      ∧ 2 ≤ calculate_market_penetration ti co ∧ calculate_market_penetration ti co ≤ 7)
    ∧ (∀ (y e : ℤ) (r : Option ℚ),
      calculate_growth_potential y e r = raw_growth_potential y e r
      ∧ 3 ≤ calculate_growth_potential y e r ∧ calculate_growth_potential y e r ≤ 9)
    ∧ ∀ (year g c : ℤ) (py np : RandSrc) (t : List FullBusiness),
        generate_comprehensive_dataset year g c py np = Except.ok t →
        ∀ x ∈ t, (2 ≤ x.market_penetration ∧ x.market_penetration ≤ 7)
          ∧ (3 ≤ x.growth_potential ∧ x.growth_potential ≤ 9) := by
  refine ⟨?_, ?_, ?_⟩
  · intro ti co
    obtain ⟨h1, h2⟩ := raw_market_penetration_bounds ti co
    rw [market_penetration_clamp_inactive]
    exact ⟨rfl, h1, h2⟩
  · intro y e r
    obtain ⟨h1, h2⟩ := raw_growth_potential_bounds y e r
    rw [growth_potential_clamp_inactive]
    exact ⟨rfl, h1, h2⟩
  · intro year g c py np t h x hx
    obtain ⟨-, -, hmp, hgp, -⟩ := table_row_facts h hx
    constructor
    · rw [hmp, market_penetration_clamp_inactive]
      exact raw_market_penetration_bounds _ _
    · rw [hgp, growth_potential_clamp_inactive]
      exact raw_growth_potential_bounds year _ _

/-- Witness for C10 on a concrete function input and a concrete row. -/
theorem C10_witness :
    (calculate_market_penetration 1 8 = raw_market_penetration 1 8)
    ∧ ((2 ≤ sampleRow.market_penetration ∧ sampleRow.market_penetration ≤ 7)
      ∧ (3 ≤ sampleRow.growth_potential ∧ sampleRow.growth_potential ≤ 9)) :=
  ⟨(C10_clamp_never_active.1 1 8).1,
   C10_clamp_never_active.2.2 2025 1 0 zeroSrc halfSrc sampleTable (by decide)
     sampleRow (by decide)⟩
